import Mathlib

/-!
Verification of the streaming cache subsystem of the ff14_tw_market
dashboard. The definitions below are a shallow embedding of
`src/websocket_api.py` (class `UniversalisWebSocket`), of the read path in
`src/display.py` (`display_item_market`), and of the configuration in
`src/config.py`. Python dicts are modelled as association lists, Python
sets as duplicate-free lists, the thread-safe FIFO `queue.Queue` as a
list (put appends at the tail, get_nowait pops the head), and wall-clock
time as an explicit `now : Nat` argument. A raw inbound websocket message
is either BSON-decodable (carrying a document) or malformed, mirroring the
`try: bson.decode … except` structure of `_handle_message`.
-/

namespace FF14Market

/-- Python `dict.get(k)` on an association list. -/
def dget {α : Type} (d : List (Nat × α)) (k : Nat) : Option α :=
  match d with
  | [] => none
  | (k', v) :: rest => if k' = k then some v else dget rest k

/-- Python `dict[k] = v`: replace the binding for `k` wholesale, or append it. -/
def dput {α : Type} (d : List (Nat × α)) (k : Nat) (v : α) : List (Nat × α) :=
  match d with
  | [] => [(k, v)]
  | (k', v') :: rest =>
      if k' = k then (k, v) :: rest else (k', v') :: dput rest k v

/-- Python `dict.pop(k, None)`: drop every binding of key `k`. -/
def dpop {α : Type} (d : List (Nat × α)) (k : Nat) : List (Nat × α) :=
  d.filter (fun p => p.1 != k)

/-- Python `set.add`: insert if absent, keep insertion order otherwise. -/
def setAdd {α : Type} [DecidableEq α] (l : List α) (a : α) : List α :=
  if a ∈ l then l else l ++ [a]

/-- Python `set.discard`: remove the element if present. -/
def setDiscard {α : Type} [DecidableEq α] (l : List α) (a : α) : List α :=
  l.filter (fun x => x != a)

/-- Fields of a decoded BSON document that the subsystem reads:
`event`, `item`, `world`, and the market payload (`listings`,
`recentHistory`, each abstracted to its list of prices). A missing
`item`/`world` field is `none`. -/
structure Doc where
  event : String
  item : Option Nat
  world : Option Nat
  listings : List Nat
  recentHistory : List Nat
  deriving Repr, DecidableEq

/-- One entry of `_item_cache`: the dict
`{"data": …, "timestamp": …, "event": …, "world": …}` stored by
`_handle_message`. -/
structure CacheEntry where
  data : Doc
  timestamp : Nat
  event : String
  world : Option Nat
  deriving Repr, DecidableEq

/-- An outbound frame `bson.encode({"event": …, "channel": …})`. -/
structure OutboundMsg where
  event : String
  channel : String
  deriving Repr, DecidableEq

/-- A raw inbound websocket message: either it BSON-decodes to a document
or `bson.decode` raises (malformed). -/
inductive RawMessage where
  | malformed : RawMessage
  | wellFormed : Doc → RawMessage
  deriving Repr, DecidableEq

/-- State of a `UniversalisWebSocket` instance, plus `sentLog`, the
sequence of frames actually written to the socket (for observing
subscribe-request traffic). `callbacks` flattens the
`dict[str, list[Callable]]` registry, callables named by `Nat` ids;
`callbackLog` records each callback invocation. -/
structure WSState where
  subscriptions : List String
  callbacks : List (String × Nat)
  callbackLog : List (Nat × Doc)
  messageQueue : List Doc
  connected : Bool
  itemCache : List (Nat × CacheEntry)
  watchedItems : List Nat
  sentLog : List OutboundMsg
  deriving Repr, DecidableEq

/-- State built by `UniversalisWebSocket.__init__`. -/
def initState : WSState :=
  { subscriptions := []
    callbacks := []
    callbackLog := []
    messageQueue := []
    connected := false
    itemCache := []
    watchedItems := []
    sentLog := [] }

/-- `CHOCOBO_WORLD_IDS = list(WORLDS.keys())` from `config.py`. -/
def CHOCOBO_WORLD_IDS : List Nat :=
  [4028, 4029, 4030, 4031, 4032, 4033, 4034, 4035]

/-- Guard `if world_id and world_id not in CHOCOBO_WORLD_IDS: return` of
`_handle_message`: the world field is present, truthy (nonzero), and not a
Chocobo data-center world. -/
def worldOutOfScope (w : Option Nat) : Prop :=
  match w with
  | none => False
  | some n => n ≠ 0 ∧ n ∉ CHOCOBO_WORLD_IDS

instance (w : Option Nat) : Decidable (worldOutOfScope w) :=
  match w with
  | none => Decidable.isFalse (fun h => h)
  | some n => inferInstanceAs (Decidable (n ≠ 0 ∧ n ∉ CHOCOBO_WORLD_IDS))

/-- Body of `_handle_message` after a successful `bson.decode`:
filter out foreign worlds; if the item is watched, overwrite its cache
entry; append the document to the message queue; fire the callbacks
registered for the event. -/
def handleDoc (s : WSState) (now : Nat) (d : Doc) : WSState :=
  if worldOutOfScope d.world then s
  else
    let entry : CacheEntry :=
      { data := d, timestamp := now, event := d.event, world := d.world }
    let s1 :=
      match d.item with
      | some i =>
          if i ≠ 0 ∧ i ∈ s.watchedItems then
            { s with itemCache := dput s.itemCache i entry }
          else s
      | none => s
    let s2 := { s1 with messageQueue := s1.messageQueue ++ [d] }
    { s2 with callbackLog := s2.callbackLog ++
        (s2.callbacks.filter (fun p => p.1 == d.event)).map (fun p => (p.2, d)) }

/-- `_handle_message`: a message whose decode raises is caught by the
surrounding `try … except` and leaves the state untouched. -/
def handleMessage (s : WSState) (now : Nat) (m : RawMessage) : WSState :=
  match m with
  | RawMessage.malformed => s
  | RawMessage.wellFormed d => handleDoc s now d

/-- The `async for message in ws` read loop: handle each timestamped raw
message in order. -/
def processAll : WSState → List (Nat × RawMessage) → WSState
  | s, [] => s
  | s, (t, m) :: rest => processAll (handleMessage s t m) rest

/-- Outbound `{"event": "subscribe", "channel": c}`. -/
def subscribeMsg (c : String) : OutboundMsg :=
  { event := "subscribe", channel := c }

/-- Outbound `{"event": "unsubscribe", "channel": c}`. -/
def unsubscribeMsg (c : String) : OutboundMsg :=
  { event := "unsubscribe", channel := c }

/-- Channel-name construction of `subscribe`/`unsubscribe`:
`f"{channel}{{world={world_id}}}"` when `world_id` is truthy. -/
def fullChannel (channel : String) (world : Option Nat) : String :=
  match world with
  | some w =>
      if w ≠ 0 then channel ++ "\x7bworld=" ++ toString w ++ "\x7d" else channel
  | none => channel

/-- Guard `if self._ws and self._connected` of `_send_subscribe` /
`_send_unsubscribe`: write the frame only while connected. -/
def sendIfConnected (s : WSState) (m : OutboundMsg) : WSState :=
  if s.connected then { s with sentLog := s.sentLog ++ [m] } else s

/-- `UniversalisWebSocket.subscribe`: record the channel in the
subscription set, and send the subscribe frame when connected. -/
def subscribe (s : WSState) (channel : String) (world : Option Nat) : WSState :=
  sendIfConnected
    { s with subscriptions := setAdd s.subscriptions (fullChannel channel world) }
    (subscribeMsg (fullChannel channel world))

/-- `UniversalisWebSocket.unsubscribe`. -/
def unsubscribe (s : WSState) (channel : String) (world : Option Nat) : WSState :=
  sendIfConnected
    { s with subscriptions := setDiscard s.subscriptions (fullChannel channel world) }
    (unsubscribeMsg (fullChannel channel world))

/-- `UniversalisWebSocket.on_event`: append a callback for an event kind. -/
def onEvent (s : WSState) (event : String) (cb : Nat) : WSState :=
  { s with callbacks := s.callbacks ++ [(event, cb)] }

/-- Connection establishment inside `_connect_and_listen`: set
`_connected = True`, then `for channel in self._subscriptions:
await self._send_subscribe(channel)` — replay the whole set on the new
connection. -/
def onConnect (s : WSState) : WSState :=
  { s with connected := true
           sentLog := s.sentLog ++ s.subscriptions.map subscribeMsg }

/-- Socket closure or error: `self._connected = False`. -/
def onDisconnect (s : WSState) : WSState :=
  { s with connected := false }

/-- Loop of `get_latest_messages`: pop from the queue head while the queue
is nonempty and fewer than `limit` messages were taken. -/
def drainQueue : Nat → List Doc → List Doc × List Doc
  | _, [] => ([], [])
  | 0, q => ([], q)
  | n + 1, d :: rest =>
      let r := drainQueue n rest
      (d :: r.1, r.2)

/-- `UniversalisWebSocket.get_latest_messages(limit)`: returns the drained
messages and the state with the drained queue. -/
def getLatestMessages (limit : Nat) (s : WSState) : List Doc × WSState :=
  let r := drainQueue limit s.messageQueue
  (r.1, { s with messageQueue := r.2 })

/-- `UniversalisWebSocket.watch_item`. -/
def watchItem (s : WSState) (itemId : Nat) : WSState :=
  { s with watchedItems := setAdd s.watchedItems itemId }

/-- `UniversalisWebSocket.unwatch_item`: discard the watch and pop the
cache entry. -/
def unwatchItem (s : WSState) (itemId : Nat) : WSState :=
  { s with watchedItems := setDiscard s.watchedItems itemId
           itemCache := dpop s.itemCache itemId }

/-- `UniversalisWebSocket.get_cached_data`. -/
def getCachedData (s : WSState) (itemId : Nat) : Option CacheEntry :=
  dget s.itemCache itemId

/-- `UniversalisWebSocket.has_update(item_id, since)`. -/
def hasUpdate (s : WSState) (itemId : Nat) (since : Nat) : Bool :=
  match dget s.itemCache itemId with
  | some e => decide (since < e.timestamp)
  | none => false

/-- `UniversalisWebSocket.clear_cache(item_id=None)`: a truthy id pops one
entry; `None` (or the falsy id `0`) clears the whole cache. -/
def clearCache (s : WSState) (itemId : Option Nat) : WSState :=
  match itemId with
  | some i => if i ≠ 0 then { s with itemCache := dpop s.itemCache i }
              else { s with itemCache := [] }
  | none => { s with itemCache := [] }

/-- Result of one execution of the read path: the updated client state,
whether the blocking market-data collaborator (`get_full_item_data_fast`)
ran, and the listings served to the UI. -/
structure ReadOutcome where
  state : WSState
  fetched : Bool
  listings : List Nat
  deriving Repr, DecidableEq

/-- Read path of `display_item_market` restricted to the streaming cache:
`watch_item(item_id)`, then `get_cached_data(item_id)`; when the hit's
payload has a truthy `listings` field the cached data is served with no
collaborator call, otherwise `get_full_item_data_fast` runs and its
listings (`fetchListings`) are served. (`get_item_info`, the static item
lookup, is out of scope.) -/
def readItem (s : WSState) (itemId : Nat) (fetchListings : List Nat) : ReadOutcome :=
  let s1 := watchItem s itemId
  match dget s1.itemCache itemId with
  | some e =>
      if e.data.listings ≠ [] then
        { state := s1, fetched := false, listings := e.data.listings }
      else
        { state := s1, fetched := true, listings := fetchListings }
  | none => { state := s1, fetched := true, listings := fetchListings }

/-- Modelled from the spec's words, for comparison with `readItem` (the
read path of the source): the spec's `read(key, max_age)` serves the
cache only when the entry's age (`now` minus its last-update timestamp)
does not exceed the caller-supplied staleness threshold. -/
def specReadRespectsMaxAge : Prop :=
  ∀ (s : WSState) (k : Nat) (f : List Nat) (now maxAge : Nat) (e : CacheEntry),
    (readItem s k f).fetched = false → dget s.itemCache k = some e →
    now - e.timestamp ≤ maxAge

/-- Cached market snapshot for item 5506, stored at time 0. -/
def entryC2 : CacheEntry :=
  { data := { event := "listings/add", item := some 5506, world := some 4028,
              listings := [100], recentHistory := [] }
    timestamp := 0
    event := "listings/add"
    world := some 4028 }

/-- Client state holding a (by time 100, long-stale) cache entry for
item 5506. -/
def stC2 : WSState :=
  { initState with itemCache := [(5506, entryC2)], watchedItems := [5506] }

/-- Inbound frame for a watched item whose `world` field is `0`: `0` is
not a Chocobo world id, but it is falsy in Python. -/
def dC3 : Doc :=
  { event := "listings/add", item := some 5506, world := some 0,
    listings := [123], recentHistory := [] }

/-- Inbound frame for a watched item from the foreign world 99. -/
def dC3b : Doc :=
  { event := "listings/add", item := some 5506, world := some 99,
    listings := [1], recentHistory := [] }

/-- Client state watching item 5506 with an empty cache. -/
def stC3 : WSState :=
  { initState with watchedItems := [5506] }

/-- Client state with two subscribed channels, as set up by `app.py`. -/
def stC4 : WSState :=
  { initState with subscriptions :=
      ["listings/add\x7bworld=4028\x7d", "sales/add\x7bworld=4028\x7d"] }

/-- First update frame for item 5506 (price 100). -/
def dC5a : Doc :=
  { event := "listings/add", item := some 5506, world := some 4028,
    listings := [100], recentHistory := [] }

/-- Second update frame for item 5506 (price 200, fresh history). -/
def dC5b : Doc :=
  { event := "sales/add", item := some 5506, world := some 4029,
    listings := [200], recentHistory := [200] }

/-- In-scope frame carrying no item field, used to pump the message
queue. -/
def pumpDoc : Doc :=
  { event := "sales/add", item := none, world := some 4028,
    listings := [], recentHistory := [] }

/-- State after `n` in-scope frames have been handled from the initial
state. -/
def pumpN : Nat → WSState
  | 0 => initState
  | n + 1 => handleMessage (pumpN n) n (RawMessage.wellFormed pumpDoc)

/-- Keys currently present in the item cache. -/
def cacheKeys (s : WSState) : List Nat :=
  s.itemCache.map Prod.fst

/-- Invariant: every cached item id is watched. -/
def CacheWatchedInv (s : WSState) : Prop :=
  ∀ k ∈ cacheKeys s, k ∈ s.watchedItems

instance (s : WSState) : Decidable (CacheWatchedInv s) :=
  inferInstanceAs (Decidable (∀ k ∈ cacheKeys s, k ∈ s.watchedItems))

/-! ### Helper lemmas about the dictionary and set operations -/

theorem dget_dput {α : Type} (d : List (Nat × α)) (k : Nat) (v : α) :
    dget (dput d k v) k = some v := by
  induction d with
  | nil => simp [dput, dget]
  | cons p rest ih =>
    obtain ⟨k', v'⟩ := p
    by_cases hp : k' = k
    · simp [dput, hp, dget]
    · simp [dput, hp, dget, ih]

theorem mem_keys_dput {α : Type} (d : List (Nat × α)) (i : Nat) (v : α) (j : Nat)
    (h : j ∈ (dput d i v).map Prod.fst) : j = i ∨ j ∈ d.map Prod.fst := by
  induction d with
  | nil => simpa [dput] using h
  | cons p rest ih =>
    obtain ⟨k', v'⟩ := p
    by_cases hp : k' = i
    · simp only [dput, if_pos hp, List.map_cons, List.mem_cons] at h
      rcases h with h | h
      · exact Or.inl h
      · exact Or.inr (List.mem_cons_of_mem _ h)
    · simp only [dput, if_neg hp, List.map_cons, List.mem_cons] at h
      rcases h with h | h
      · exact Or.inr (by simp [h])
      · rcases ih h with h' | h'
        · exact Or.inl h'
        · exact Or.inr (List.mem_cons_of_mem _ h')

theorem mem_keys_dpop {α : Type} {d : List (Nat × α)} {i j : Nat}
    (h : j ∈ (dpop d i).map Prod.fst) : j ∈ d.map Prod.fst ∧ j ≠ i := by
  simp only [dpop, List.mem_map, List.mem_filter, bne_iff_ne] at h
  rcases h with ⟨p, ⟨hp, hne⟩, rfl⟩
  exact ⟨List.mem_map_of_mem _ hp, hne⟩

theorem mem_setAdd_of_mem {α : Type} [DecidableEq α] {l : List α} {a b : α}
    (h : a ∈ l) : a ∈ setAdd l b := by
  unfold setAdd
  split <;> simp [h]

theorem mem_setAdd_self {α : Type} [DecidableEq α] (l : List α) (a : α) :
    a ∈ setAdd l a := by
  unfold setAdd
  split <;> simp_all

theorem setAdd_idem {α : Type} [DecidableEq α] (l : List α) (a : α) :
    setAdd (setAdd l a) a = setAdd l a := by
  unfold setAdd
  by_cases hm : a ∈ l
  · simp [hm]
  · simp [hm]

theorem mem_setDiscard {α : Type} [DecidableEq α] {l : List α} {a x : α} :
    x ∈ setDiscard l a ↔ x ∈ l ∧ x ≠ a := by
  simp [setDiscard, List.mem_filter, bne_iff_ne]

theorem drainQueue_eq (n : Nat) (q : List Doc) :
    drainQueue n q = (q.take n, q.drop n) := by
  induction q generalizing n with
  | nil => cases n <;> simp [drainQueue]
  | cons d rest ih =>
    cases n with
    | zero => simp [drainQueue]
    | succ m => simp [drainQueue, ih]

theorem subscribeMsg_injective : Function.Injective subscribeMsg := by
  intro a b hab
  simpa [subscribeMsg, OutboundMsg.mk.injEq] using hab

/-! ### Helper lemmas about the message handler and the read path -/

theorem handleDoc_watchedItems (s : WSState) (now : Nat) (d : Doc) :
    (handleDoc s now d).watchedItems = s.watchedItems := by
  unfold handleDoc
  repeat' split
  all_goals rfl

theorem handleDoc_itemCache_watched (s : WSState) (now : Nat) (d : Doc) (k : Nat)
    (hitem : d.item = some k) (hk : k ≠ 0) (hw : k ∈ s.watchedItems)
    (hscope : ¬ worldOutOfScope d.world) :
    (handleDoc s now d).itemCache =
      dput s.itemCache k
        { data := d, timestamp := now, event := d.event, world := d.world } := by
  unfold handleDoc
  rw [if_neg hscope]
  simp only [hitem]
  rw [if_pos ⟨hk, hw⟩]

theorem handleDoc_queue (s : WSState) (now : Nat) (d : Doc)
    (h : ¬ worldOutOfScope d.world) :
    (handleDoc s now d).messageQueue = s.messageQueue ++ [d] := by
  unfold handleDoc
  rw [if_neg h]
  repeat' split
  all_goals rfl

theorem handleDoc_inv (s : WSState) (now : Nat) (d : Doc) (h : CacheWatchedInv s) :
    CacheWatchedInv (handleDoc s now d) := by
  unfold handleDoc
  split
  · exact h
  · cases hd : d.item with
    | none =>
      intro j hj
      exact h j hj
    | some i =>
      by_cases hc : i ≠ 0 ∧ i ∈ s.watchedItems
      · simp only [hd, if_pos hc]
        intro j hj
        rcases mem_keys_dput s.itemCache i _ j hj with rfl | hj'
        · exact hc.2
        · exact h j hj'
      · simp only [hd, if_neg hc]
        intro j hj
        exact h j hj

theorem readItem_state_itemCache (s : WSState) (k : Nat) (r : List Nat) :
    (readItem s k r).state.itemCache = s.itemCache := by
  unfold readItem
  dsimp only
  split
  · split <;> rfl
  · rfl

theorem pumpN_len (n : Nat) : (pumpN n).messageQueue.length = n := by
  induction n with
  | zero => rfl
  | succ m ih =>
    have h : ¬ worldOutOfScope pumpDoc.world := by decide
    show (handleDoc (pumpN m) m pumpDoc).messageQueue.length = m + 1
    rw [handleDoc_queue _ _ _ h]
    simp [ih]

/-! ### Claim theorems -/

/-- Claim C1, counterexample: starting from a state with no cache entry
for item 9999, the first read does invoke the collaborator, but its
result is never stored in the item cache, so an immediately following
`read(9999)` invokes the collaborator again — contradicting the claim
that the fetched snapshot is cached and the second read is served from
the cache. -/
theorem C1_counterexample :
    (readItem initState 9999 [42]).fetched = true ∧
    dget (readItem initState 9999 [42]).state.itemCache 9999 = none ∧
    (readItem (readItem initState 9999 [42]).state 9999 [42]).fetched = true := by
  decide

/-- Claim C1, amended: a read of a key with no cache entry invokes the
blocking collaborator (exactly once per read), leaves the item cache
unchanged — the fetched snapshot is NOT seeded into the cache — and an
immediately following read of the same key invokes the collaborator
again; only inbound feed frames populate the cache. -/
theorem C1_amended (s : WSState) (k : Nat) (r r' : List Nat)
    (h : dget s.itemCache k = none) :
    (readItem s k r).fetched = true ∧
    (readItem s k r).state.itemCache = s.itemCache ∧
    (readItem (readItem s k r).state k r').fetched = true := by
  have hc : (readItem s k r).state.itemCache = s.itemCache :=
    readItem_state_itemCache s k r
  refine ⟨?_, hc, ?_⟩
  · simp [readItem, watchItem, h]
  · have h2 : dget (readItem s k r).state.itemCache k = none := by rw [hc]; exact h
    generalize (readItem s k r).state = s2 at h2 ⊢
    simp [readItem, watchItem, h2]

/-- Claim C1, witness: the amended theorem applied at the initial state
and item 9999. -/
theorem C1_witness :
    dget initState.itemCache 9999 = none ∧
    ((readItem initState 9999 [42]).fetched = true ∧
      (readItem initState 9999 [42]).state.itemCache = initState.itemCache ∧
      (readItem (readItem initState 9999 [42]).state 9999 [42]).fetched = true) :=
  ⟨by decide, C1_amended initState 9999 [42] [42] (by decide)⟩

/-- Claim C2, counterexample: the read path applies no staleness
threshold. In state `stC2` the cache entry for item 5506 was stored at
time 0, yet a read (at any later time, e.g. now = 100, with any max_age,
e.g. 60) serves it from the cache without fetching, so the spec-derived
property `specReadRespectsMaxAge` is false. -/
theorem C2_counterexample : ¬ specReadRespectsMaxAge := by
  intro h
  have h2 := h stC2 5506 [] 100 60 entryC2 (by decide) (by decide)
  exact absurd h2 (by decide)

/-- Claim C2, amended: the read path serves the cached entry whenever one
is present and its payload carries a nonempty `listings` list, regardless
of the entry's age; no caller-supplied staleness threshold exists in the
code (`has_update(key, since)` offers a freshness test, but the read path
does not call it). -/
theorem C2_amended (s : WSState) (k : Nat) (f : List Nat) (e : CacheEntry)
    (he : dget s.itemCache k = some e) (hl : e.data.listings ≠ []) :
    (readItem s k f).fetched = false ∧
    (readItem s k f).listings = e.data.listings := by
  constructor <;> simp [readItem, watchItem, he, hl]

/-- Claim C2, witness: the amended theorem applied at `stC2` whose entry
for 5506 holds listings `[100]`. -/
theorem C2_witness :
    (dget stC2.itemCache 5506 = some entryC2 ∧ entryC2.data.listings ≠ []) ∧
    ((readItem stC2 5506 []).fetched = false ∧
      (readItem stC2 5506 []).listings = entryC2.data.listings) :=
  ⟨by decide, C2_amended stC2 5506 [] entryC2 (by decide) (by decide)⟩

/-- Claim C3, counterexample: a frame whose `world` field is `0` — a
partition id that is NOT among the Chocobo world ids — bypasses the
partition filter because `0` is falsy in Python, and does create a cache
entry for the watched item 5506. -/
theorem C3_counterexample :
    (0 ∉ CHOCOBO_WORLD_IDS) ∧ dC3.world = some 0 ∧
    dget stC3.itemCache 5506 = none ∧
    dget (handleMessage stC3 7 (RawMessage.wellFormed dC3)).itemCache 5506 =
      some { data := dC3, timestamp := 7, event := "listings/add", world := some 0 } := by
  decide

/-- Claim C3, amended: every frame whose `world` field is present,
nonzero, and not among the Chocobo data-center world ids is silently
discarded — the whole client state, in particular the item cache, is left
unchanged. (A frame whose world field is `0` or absent bypasses the
filter.) -/
theorem C3_amended (s : WSState) (now : Nat) (d : Doc) (w : Nat)
    (hw : d.world = some w) (h0 : w ≠ 0) (hmem : w ∉ CHOCOBO_WORLD_IDS) :
    handleMessage s now (RawMessage.wellFormed d) = s := by
  show handleDoc s now d = s
  have hscope : worldOutOfScope d.world := by
    rw [hw]
    exact ⟨h0, hmem⟩
  unfold handleDoc
  rw [if_pos hscope]

/-- Claim C3, witness: the amended theorem applied to a frame from the
foreign world 99 while watching item 5506. -/
theorem C3_witness :
    (dC3b.world = some 99 ∧ 99 ≠ 0 ∧ 99 ∉ CHOCOBO_WORLD_IDS) ∧
    handleMessage stC3 3 (RawMessage.wellFormed dC3b) = stC3 :=
  ⟨by decide, C3_amended stC3 3 dC3b 99 (by decide) (by decide) (by decide)⟩

/-- Claim C4: on every newly established connection the full current
subscription set is replayed verbatim — the frames sent on the new
connection are exactly one subscribe request per stored topic, so each
topic of the set is sent exactly once (and topics outside the set are
never sent). -/
theorem C4_thm (s : WSState) (h : s.subscriptions.Nodup) (t : String) :
    (onConnect s).sentLog = s.sentLog ++ s.subscriptions.map subscribeMsg ∧
    ((onConnect s).sentLog.drop s.sentLog.length).count (subscribeMsg t) =
      (if t ∈ s.subscriptions then 1 else 0) := by
  constructor
  · rfl
  · have hdrop : (onConnect s).sentLog.drop s.sentLog.length =
        s.subscriptions.map subscribeMsg := by
      simp [onConnect]
    rw [hdrop, List.count_map_of_injective _ _ subscribeMsg_injective]
    split
    · exact List.count_eq_one_of_mem h (by assumption)
    · exact List.count_eq_zero_of_not_mem (by assumption)

/-- Claim C4, witness: the replay theorem applied at a state with the two
channels subscribed by `app.py` for world 4028. -/
theorem C4_witness :
    stC4.subscriptions.Nodup ∧
    ((onConnect stC4).sentLog.drop stC4.sentLog.length).count
        (subscribeMsg "sales/add\x7bworld=4028\x7d") =
      (if "sales/add\x7bworld=4028\x7d" ∈ stC4.subscriptions then 1 else 0) :=
  ⟨by decide, (C4_thm stC4 (by decide) "sales/add\x7bworld=4028\x7d").2⟩

/-- Claim C5: two successive updates for the same watched key are applied
last-write-wins — after handling a frame with payload `d1` at `t1` and a
frame with payload `d2` at `t2 > t1`, the cache holds exactly the entry
built from `d2` (every field replaced wholesale, no partial merge of the
two payloads). -/
theorem C5_thm (s : WSState) (k t1 t2 : Nat) (d1 d2 : Doc)
    (hk : k ≠ 0) (hw : k ∈ s.watchedItems)
    (h1 : d1.item = some k) (h2 : d2.item = some k)
    (hs1 : ¬ worldOutOfScope d1.world) (hs2 : ¬ worldOutOfScope d2.world)
    (ht : t1 < t2) :
    dget (handleMessage (handleMessage s t1 (RawMessage.wellFormed d1)) t2
        (RawMessage.wellFormed d2)).itemCache k =
      some { data := d2, timestamp := t2, event := d2.event, world := d2.world } := by
  have hw2 : k ∈ (handleDoc s t1 d1).watchedItems := by
    rw [handleDoc_watchedItems]
    exact hw
  show dget (handleDoc (handleDoc s t1 d1) t2 d2).itemCache k = _
  rw [handleDoc_itemCache_watched _ _ _ _ h2 hk hw2 hs2, dget_dput]

/-- Claim C5, witness: last-write-wins applied to two concrete frames for
item 5506 at times 1 and 2. -/
theorem C5_witness :
    (5506 ≠ 0 ∧ 5506 ∈ stC3.watchedItems ∧ dC5a.item = some 5506 ∧
      dC5b.item = some 5506 ∧ ¬ worldOutOfScope dC5a.world ∧
      ¬ worldOutOfScope dC5b.world ∧ 1 < 2) ∧
    dget (handleMessage (handleMessage stC3 1 (RawMessage.wellFormed dC5a)) 2
        (RawMessage.wellFormed dC5b)).itemCache 5506 =
      some { data := dC5b, timestamp := 2, event := dC5b.event, world := dC5b.world } :=
  ⟨by decide,
   C5_thm stC3 5506 1 2 dC5a dC5b (by decide) (by decide) (by decide) (by decide)
     (by decide) (by decide) (by decide)⟩

/-- Claim C6, counterexample: `watch_item(5506)` adds the key to the
watched set but leaves the subscription set empty and sends nothing — it
does not ensure that any topic derived for the key exists in Subscription
State, contradicting the claim. -/
theorem C6_counterexample :
    (watchItem initState 5506).watchedItems = [5506] ∧
    (watchItem initState 5506).subscriptions = [] ∧
    (watchItem initState 5506).sentLog = [] := by
  decide

/-- Claim C6, amended: `watch_item(key)` only adds the key to the
WatchedSet; it never modifies Subscription State, never sends a subscribe
request (so in particular no duplicates), leaves the cache unchanged, and
is idempotent — a second call is externally indistinguishable from the
first. Subscription topics are established separately via `subscribe`. -/
theorem C6_amended (s : WSState) (k : Nat) :
    (watchItem s k).watchedItems = setAdd s.watchedItems k ∧
    (watchItem s k).subscriptions = s.subscriptions ∧
    (watchItem s k).sentLog = s.sentLog ∧
    (watchItem s k).itemCache = s.itemCache ∧
    watchItem (watchItem s k) k = watchItem s k := by
  refine ⟨rfl, rfl, rfl, rfl, ?_⟩
  simp [watchItem, setAdd_idem]

/-- Claim C7: a message that fails to decode is dropped — handling it
leaves the client state unchanged — and the read loop goes on: processing
a stream that starts with a malformed message equals processing the
remaining messages, so the next well-formed frame still gets its cache
update, queue append, and callback dispatch. -/
theorem C7_thm (s : WSState) (t : Nat) (rest : List (Nat × RawMessage)) :
    handleMessage s t RawMessage.malformed = s ∧
    processAll s ((t, RawMessage.malformed) :: rest) = processAll s rest :=
  ⟨rfl, rfl⟩

/-- Claim C8, counterexample: the recent-event store is `queue.Queue()`
with no maxsize — after `n` in-scope frames the queue holds `n` messages,
so no fixed capacity bounds it and nothing is ever dropped. -/
theorem C8_counterexample :
    ¬ ∃ cap : Nat, ∀ n : Nat, (pumpN n).messageQueue.length ≤ cap := by
  rintro ⟨cap, hcap⟩
  have h := hcap (cap + 1)
  rw [pumpN_len] at h
  omega

/-- Claim C8, amended: the recent-event store is an unbounded FIFO queue —
every in-scope frame is appended at the tail and none is dropped — while
`get_latest_messages(limit)` still returns at most `limit` of the stored
frames, oldest first. -/
theorem C8_amended (s : WSState) (now limit : Nat) (d : Doc)
    (h : ¬ worldOutOfScope d.world) :
    (handleMessage s now (RawMessage.wellFormed d)).messageQueue =
      s.messageQueue ++ [d] ∧
    (getLatestMessages limit s).1.length ≤ limit ∧
    (getLatestMessages limit s).1 = s.messageQueue.take limit := by
  refine ⟨handleDoc_queue s now d h, ?_, ?_⟩ <;>
    simp [getLatestMessages, drainQueue_eq]

/-- Claim C8, witness: the amended theorem applied to an in-scope frame
and limit 3 at the initial state. -/
theorem C8_witness :
    (¬ worldOutOfScope pumpDoc.world) ∧
    ((handleMessage initState 0 (RawMessage.wellFormed pumpDoc)).messageQueue =
        initState.messageQueue ++ [pumpDoc] ∧
      (getLatestMessages 3 initState).1.length ≤ 3 ∧
      (getLatestMessages 3 initState).1 = initState.messageQueue.take 3) :=
  ⟨by decide, C8_amended initState 0 3 pumpDoc (by decide)⟩

/-- Claim C9: `get_latest_messages(limit)` is a destructive read — it
returns the oldest at-most-`limit` stored messages in arrival order and
removes exactly those from the queue, so the messages returned by two
successive calls occupy disjoint positions of the original queue (no
message is ever returned twice). -/
theorem C9_thm (s : WSState) (l l' : Nat) :
    (getLatestMessages l s).1 = s.messageQueue.take l ∧
    (getLatestMessages l s).1.length ≤ l ∧
    (getLatestMessages l s).2.messageQueue = s.messageQueue.drop l ∧
    (getLatestMessages l s).1 ++ (getLatestMessages l s).2.messageQueue =
      s.messageQueue ∧
    (getLatestMessages l s).1 ++ (getLatestMessages l' (getLatestMessages l s).2).1 ++
        (getLatestMessages l' (getLatestMessages l s).2).2.messageQueue =
      s.messageQueue := by
  refine ⟨?_, ?_, ?_, ?_, ?_⟩ <;> simp [getLatestMessages, drainQueue_eq]

/-- Claim C10: the invariant "every cached key is watched" is preserved
by every operation — frame handling, `watch_item`, `unwatch_item` (which
removes the cache entry together with the watch), and `clear_cache`. -/
theorem C10_thm (s : WSState) (h : CacheWatchedInv s) :
    (∀ now m, CacheWatchedInv (handleMessage s now m)) ∧
    (∀ k, CacheWatchedInv (watchItem s k)) ∧
    (∀ k, CacheWatchedInv (unwatchItem s k)) ∧
    (∀ i, CacheWatchedInv (clearCache s i)) := by
  refine ⟨?_, ?_, ?_, ?_⟩
  · intro now m
    cases m with
    | malformed => exact h
    | wellFormed d => exact handleDoc_inv s now d h
  · intro k j hj
    exact mem_setAdd_of_mem (h j hj)
  · intro k j hj
    rcases mem_keys_dpop hj with ⟨hjc, hne⟩
    exact mem_setDiscard.mpr ⟨h j hjc, hne⟩
  · intro i j hj
    cases i with
    | none => simp [clearCache, cacheKeys] at hj
    | some n =>
      by_cases hn : n ≠ 0
      · simp only [clearCache, if_pos hn] at hj ⊢
        exact h j (mem_keys_dpop hj).1
      · simp [clearCache, hn, cacheKeys] at hj

/-- Claim C10, witness: the invariant theorem applied at the initial
state, instantiated at `watch_item 5506` and at a concrete frame. -/
theorem C10_witness :
    CacheWatchedInv initState ∧
    CacheWatchedInv (watchItem initState 5506) ∧
    CacheWatchedInv (handleMessage initState 7 (RawMessage.wellFormed dC5a)) :=
  ⟨by decide, (C10_thm initState (by decide)).2.1 5506,
    (C10_thm initState (by decide)).1 7 (RawMessage.wellFormed dC5a)⟩

end FF14Market
